import Mathlib

/-!
# Verification of the motion-triggered event-capture engine

Shallow embedding of the event classifier (`src/event_classifier.py`) and the
smart-camera recording state machine (`src/smart_camera.py`) of the
transformer-monitor repository, with theorems checking the natural-language
specification against the code.

Conventions of the embedding:
* Python floats are modelled as exact rationals (`ℚ`); `int(x)` truncation is
  `pyInt`; Python truthiness of an optional float is `pyTruthyQ`.
* An OpenCV contour is abstracted by the quantities the code extracts from it:
  its `cv2.contourArea` and its raw moments `m00`, `m10`, `m01`.
* A `datetime` value is abstracted by the fields the code reads: `hour`,
  `weekday()` and its epoch value `timestamp()` (subtraction of datetimes in
  seconds is subtraction of epochs).
* External side effects of the camera loop (file writes, snapshot captures,
  database stores, uploads) are modelled as an emitted list of `Act`ions, with
  the outcome of fallible external calls supplied by the per-tick environment
  `Env`.
-/

namespace TransformerMonitor

/-- Python `int(x)`: truncation toward zero. -/
def pyInt (q : ℚ) : ℤ := if q < 0 then ⌈q⌉ else ⌊q⌋

/-- Python truthiness of an optional float: `None` and `0.0` are falsy. -/
def pyTruthyQ : Option ℚ → Bool
  | none => false
  | some q => decide (q ≠ 0)

/-! ## Event classifier (`src/event_classifier.py`) -/

/-- The data `cv2` extracts from one contour: `cv2.contourArea` and the raw
moments `m00`, `m10`, `m01` used for the centroid. -/
structure Contour where
  area : ℚ
  m00 : ℚ
  m10 : ℚ
  m01 : ℚ
deriving Repr, DecidableEq

/-- A `datetime`, abstracted by the fields the classifier reads. -/
structure Timestamp where
  hour : ℕ
  weekday : ℕ
  epoch : ℚ
deriving Repr, DecidableEq

/-- One entry of `EventClassifier.motion_history`:
`{'timestamp': ..., 'centroid': (cx, cy), 'area': ...}`. -/
structure MotionSample where
  ts : Timestamp
  cx : ℚ
  cy : ℚ
  area : ℚ
deriving Repr, DecidableEq

/-- The mutable state of an `EventClassifier` instance. -/
structure ClassifierState where
  motion_history : List MotionSample
  motion_start_time : Option Timestamp
  frame_width : ℕ
  frame_height : ℕ
deriving Repr, DecidableEq

/-- `self.frame_area = self.frame_width * self.frame_height`. -/
def frameArea (st : ClassifierState) : ℚ := (st.frame_width : ℚ) * (st.frame_height : ℚ)

/-- The classifier state as constructed in `EventClassifier.__init__`. -/
def initClassifierState : ClassifierState :=
  { motion_history := [], motion_start_time := none, frame_width := 640, frame_height := 480 }

/-- The result dictionary returned by `classify_event`. -/
structure ClassResult where
  event_type : String
  confidence_score : ℚ
  motion_area : ℚ
  motion_pattern : String
  time_classification : String
  size_classification : String
  timestamp : Timestamp
deriving Repr, DecidableEq

def EVENT_MAINTENANCE : String := "maintenance_visit"
def EVENT_SECURITY : String := "security_breach"
def EVENT_ANIMAL : String := "animal"

def BUSINESS_START_HOUR : ℕ := 8
def BUSINESS_END_HOUR : ℕ := 17
def BUSINESS_DAYS : List ℕ := [0, 1, 2, 3, 4]

def ANIMAL_SIZE_THRESHOLD : ℚ := 0.20
def MAINTENANCE_SIZE_THRESHOLD : ℚ := 0.30
def ANIMAL_DURATION_THRESHOLD : ℚ := 30
def MAINTENANCE_DURATION_THRESHOLD : ℚ := 120
def ERRATIC_MOTION_THRESHOLD : ℚ := 0.6
def SUSTAINED_MOTION_DURATION : ℚ := 3.0

/-- `cv2.contourArea` on the abstracted contour. -/
def contourArea (c : Contour) : ℚ := c.area

/-- `sum(cv2.contourArea(c) for c in contours)`. -/
def totalContourArea (contours : List Contour) : ℚ := (contours.map contourArea).sum

/-- `cv2.contourArea(max(contours, key=cv2.contourArea))`: the area of the
largest contour (`0` never arises, the callers guard against `[]`). -/
def largestContourArea : List Contour → ℚ
  | [] => 0
  | c :: cs => (cs.map contourArea).foldl max (contourArea c)

/-- `EventClassifier._classify_time`. -/
def classify_time (timestamp : Timestamp) : String × ℚ :=
  if BUSINESS_START_HOUR ≤ timestamp.hour ∧ timestamp.hour < BUSINESS_END_HOUR ∧
      timestamp.weekday ∈ BUSINESS_DAYS then
    ("business_hours", 0.8)
  else
    ("off_hours", 0.9)

/-- `EventClassifier._classify_size`: returns
`(classification, confidence, total_area)`. -/
def classify_size (contours : List Contour) (frame_area : ℚ) : String × ℚ × ℚ :=
  if contours = [] then ("unknown", 0, 0)
  else
    let total_area := totalContourArea contours
    let largest_percentage := largestContourArea contours / frame_area
    if largest_percentage < ANIMAL_SIZE_THRESHOLD then
      ("small", min 0.9 (0.5 + (ANIMAL_SIZE_THRESHOLD - largest_percentage) * 4), total_area)
    else if largest_percentage > MAINTENANCE_SIZE_THRESHOLD then
      ("large", min 0.95 (0.6 + (largest_percentage - MAINTENANCE_SIZE_THRESHOLD) * 2), total_area)
    else
      ("medium", 0.5, total_area)

/-- `EventClassifier._combine_classifications`: the eight-rule first-match
chain combining the sub-classifications into `(event_type, confidence)`. -/
def combine_classifications (time_class : String) (time_conf : ℚ)
    (size_class : String) (size_conf : ℚ)
    (pattern_class : String) (pattern_conf : ℚ)
    (duration_seconds : ℚ) : String × ℚ :=
  if time_class = "business_hours" ∧ size_class = "large" ∧
      duration_seconds > MAINTENANCE_DURATION_THRESHOLD then
    (EVENT_MAINTENANCE, min 0.95 (time_conf * 0.3 + size_conf * 0.4 + 0.3))
  else if size_class = "small" ∧ duration_seconds < ANIMAL_DURATION_THRESHOLD then
    (EVENT_ANIMAL, min 0.92 (size_conf * 0.6 + 0.4))
  else if size_class = "small" then
    (EVENT_ANIMAL, min 0.85 (size_conf * 0.9))
  else if time_class = "off_hours" then
    if size_class = "large" then
      (EVENT_SECURITY, min 0.90 (time_conf * 0.5 + size_conf * 0.5))
    else
      (EVENT_SECURITY, min 0.75 (time_conf * 0.85))
  else if time_class = "business_hours" ∧ size_class = "large" ∧
      pattern_class = "sustained" then
    (EVENT_MAINTENANCE, min 0.85 (time_conf * 0.4 + size_conf * 0.3 + pattern_conf * 0.3))
  else if time_class = "business_hours" ∧ pattern_class = "erratic" then
    (EVENT_ANIMAL, min 0.70 (pattern_conf * 0.8))
  else if time_class = "business_hours" then
    (EVENT_MAINTENANCE, min 0.55 (time_conf * 0.65))
  else
    (EVENT_SECURITY, min 0.50 (time_conf * 0.60))

/-- `np.arctan2 y x`, i.e. the argument of the complex number `x + y*i`
(`arg 0 = 0`, matching `np.arctan2(0, 0)`). -/
noncomputable def atan2 (y x : ℝ) : ℝ := Complex.arg ⟨x, y⟩

/-- The area-weighted centroid of `_classify_motion_pattern`: contours whose
moment `m00` is zero are skipped, the rest contribute
`(m10 / m00) * cv2.contourArea` (resp. `m01`), divided by the total area. -/
def weightedCentroid (contours : List Contour) (total_area : ℚ) : ℚ × ℚ :=
  ((contours.map fun c => if c.m00 = 0 then 0 else c.m10 / c.m00 * contourArea c).sum
      / total_area,
   (contours.map fun c => if c.m00 = 0 then 0 else c.m01 / c.m00 * contourArea c).sum
      / total_area)

/-- The consecutive centroid displacements `(dx, dy)` of the motion history
(entry `i` of the result pairs history entries `i` and `i+1`). -/
def centroidDeltas : List MotionSample → List (ℚ × ℚ)
  | a :: b :: rest => (b.cx - a.cx, b.cy - a.cy) :: centroidDeltas (b :: rest)
  | _ => []

/-- The angle difference between two displacement steps, normalized to
`[0, π]` exactly as in the source (`abs`, then fold into `[0, π]`). -/
noncomputable def normalizedAngleDiff (prev curr : ℚ × ℚ) : ℝ :=
  let prev_angle := atan2 (prev.2 : ℝ) (prev.1 : ℝ)
  let curr_angle := atan2 (curr.2 : ℝ) (curr.1 : ℝ)
  let angle_diff := |curr_angle - prev_angle|
  if angle_diff > Real.pi then 2 * Real.pi - angle_diff else angle_diff

open Classical in
/-- The number of direction changes: for each pair of consecutive
displacements whose first member is nonzero, count an angle change above
45 degrees. -/
noncomputable def directionChanges : List (ℚ × ℚ) → ℕ
  | d1 :: d2 :: rest =>
      (if (d1.1 ≠ 0 ∨ d1.2 ≠ 0) ∧ normalizedAngleDiff d1 d2 > Real.pi / 4 then 1 else 0)
        + directionChanges (d2 :: rest)
  | _ => 0

/-- `total_distance`: the sum of the Euclidean lengths of the displacements. -/
noncomputable def totalDistance (ds : List (ℚ × ℚ)) : ℝ :=
  (ds.map fun d => Real.sqrt ((d.1 : ℝ) ^ 2 + (d.2 : ℝ) ^ 2)).sum

def dummySample : MotionSample := { ts := { hour := 0, weekday := 0, epoch := 0 },
                                    cx := 0, cy := 0, area := 0 }

open Classical in
/-- The metric tail of `_classify_motion_pattern`, reached once the pruned
history holds at least 5 samples: computes the direction-change rate and the
average speed and classifies `erratic` / `sustained` / `steady`. -/
noncomputable def patternFromHistory (history : List MotionSample) : String × ℚ :=
  let ds := centroidDeltas history
  let duration : ℚ :=
    (history.getLastD dummySample).ts.epoch - (history.headD dummySample).ts.epoch
  let direction_change_rate : ℚ :=
    if duration > 0 then (directionChanges ds : ℚ) / duration else 0
  let avg_speed : ℝ := if duration > 0 then totalDistance ds / (duration : ℝ) else 0
  if direction_change_rate > ERRATIC_MOTION_THRESHOLD then
    ("erratic", min 0.85 (0.5 + direction_change_rate))
  else if duration ≥ SUSTAINED_MOTION_DURATION ∧ avg_speed < 50 then
    ("sustained", min 0.85 (0.5 + duration / 10))
  else
    ("steady", 0.5)

/-- `EventClassifier._classify_motion_pattern`: returns the
`(classification, confidence)` pair and the classifier state with the updated
(appended and pruned to the last 10 seconds) motion history. -/
noncomputable def classify_motion_pattern (contours : List Contour) (timestamp : Timestamp)
    (st : ClassifierState) : (String × ℚ) × ClassifierState :=
  if contours = [] then (("unknown", 0), st)
  else
    let total_area := totalContourArea contours
    if total_area = 0 then (("unknown", 0), st)
    else
      let centroid := weightedCentroid contours total_area
      let appended := st.motion_history ++
        [{ ts := timestamp, cx := centroid.1, cy := centroid.2, area := total_area }]
      let cutoff_time := timestamp.epoch - 10
      let pruned := appended.filter fun h => h.ts.epoch > cutoff_time
      let st' := { st with motion_history := pruned }
      if pruned.length < 5 then (("initializing", 0.3), st')
      else (patternFromHistory pruned, st')

/-- `EventClassifier.classify_event`: updates the frame dimensions, starts
motion tracking on the first call, runs the three sub-classifiers and the
combination chain, and returns the result record together with the updated
classifier state. The `timestamp` argument is the caller-supplied timestamp
(`datetime.now()` when the caller omits it). -/
noncomputable def classify_event (contours : List Contour) (frame_shape : ℕ × ℕ)
    (timestamp : Timestamp) (st : ClassifierState) : ClassResult × ClassifierState :=
  let st1 := { st with frame_height := frame_shape.1, frame_width := frame_shape.2 }
  let st2 := if st1.motion_start_time = none then
      { st1 with motion_start_time := some timestamp, motion_history := [] }
    else st1
  let tr := classify_time timestamp
  let sr := classify_size contours (frameArea st2)
  let pr := classify_motion_pattern contours timestamp st2
  let duration_seconds : ℚ :=
    match st2.motion_start_time with
    | some t0 => timestamp.epoch - t0.epoch
    | none => 0
  let combined := combine_classifications tr.1 tr.2 sr.1 sr.2.1 pr.1.1 pr.1.2 duration_seconds
  ({ event_type := combined.1,
     confidence_score := combined.2,
     motion_area := sr.2.2,
     motion_pattern := pr.1.1,
     time_classification := tr.1,
     size_classification := sr.1,
     timestamp := timestamp }, pr.2)

/-- `EventClassifier.reset_motion_tracking`. -/
def reset_motion_tracking (st : ClassifierState) : ClassifierState :=
  { st with motion_history := [], motion_start_time := none }

/-! ## Smart camera (`src/smart_camera.py`) -/

/-- A configuration, as consumed through `config.get(key, default)`: a partial
map from dotted keys to (numeric) values. -/
def Config : Type := String → Option ℚ

/-- `config.get(key, default)` for numeric settings. -/
def configGet (config : Config) (key : String) (default : ℚ) : ℚ :=
  (config key).getD default

/-- The recording-limit settings as assigned in `SmartCamera.__init__`
(lines 80-86): the duration limit is read from the configuration, the file
size limit is the hard-coded constant `50 * 1024 * 1024`. -/
structure RecordingLimits where
  max_record_duration : ℚ
  max_file_size_bytes : ℚ
deriving Repr, DecidableEq

/-- `SmartCamera.__init__`, recording-limits part. -/
def recordingLimits (config : Config) : RecordingLimits :=
  { max_record_duration := configGet config "pi_camera.recording.max_duration_seconds" 60,
    max_file_size_bytes := 50 * 1024 * 1024 }

/-- `_initialize_circular_buffer`:
`buffer_size_bytes = int(self.pre_record_seconds * 2000000 / 8 * 1.2)`. -/
def bufferSizeBytes (pre_record_seconds : ℚ) : ℤ :=
  pyInt (pre_record_seconds * 2000000 / 8 * 1.2)

/-- The generated output file path of `_start_recording`:
`{site_id}_video_{trigger_type}_{timestamp}.h264`, abstracted by its
components. -/
structure RecPath where
  site : String
  kind : String
  trigger : String
  time : ℚ
deriving Repr, DecidableEq

/-- The `self.stats` counters the recording paths touch. -/
structure Stats where
  motion_events : ℕ
  recordings_saved : ℕ
  snapshots_taken : ℕ
  total_recording_seconds : ℤ
  classified_events : ℕ
deriving Repr, DecidableEq

/-- The `SmartCamera` object state: the configuration fields assigned in
`__init__` that the motion-detection/recording paths read, plus the mutable
recording / event state. -/
structure CamState where
  motion_min_area : ℚ
  motion_cooldown : ℚ
  pre_record_seconds : ℚ
  post_record_seconds : ℚ
  max_record_duration : ℚ
  max_file_size_bytes : ℚ
  site_id : String
  has_media_uploader : Bool
  is_recording : Bool
  current_recording_path : Option RecPath
  recording_start_time : Option ℚ
  last_motion_time : Option ℚ
  last_recording_end_time : ℚ
  stats : Stats
  current_event_classification : Option ClassResult
  current_event_contours : List Contour
  event_snapshots : List String
  event_snapshots_raw : List String
  snapshot_start_captured : Bool
  snapshot_peak_captured : Bool
  classifier : ClassifierState

/-- The local variables of `_motion_detection_loop` together with the camera
object state. -/
structure LoopState where
  cam : CamState
  consecutive_frames_without_motion : ℕ
  consecutive_frames_with_motion : ℕ
  motion_detected : Bool

/-- `motion_trigger_threshold = 3` (local constant of the detection loop). -/
def motion_trigger_threshold : ℕ := 3

/-- The external observations one pass of the detection loop makes: the
current wall clock, the contours found in the frame, the frame shape, the
probed output-file size (`none` when the file is missing or `getsize`
fails), the outcome of a `capture_snapshot` call, the outcome of
`process_event_snapshot` per raw path, and whether the encoder-output
start/stop calls succeed (an exception there is caught by the source's
`except` blocks). -/
structure Env where
  now : ℚ
  nowDT : Timestamp
  contours : List Contour
  frame_shape : ℕ × ℕ
  file_size : Option ℤ
  snap_result : Option String
  process_snap : String → Option String
  start_ok : Bool
  stop_ok : Bool

/-- The externally visible actions a pass of the loop can perform. -/
inductive Act where
  | snapAttempt (kind : String)
  | queuedSnapshot (p : String)
  | startedRecording (p : RecPath)
  | queuedVideo (p : RecPath)
  | storedEvent (c : ClassResult)
  | loggedEvent (c : ClassResult)
  | publishedEvent (c : ClassResult)
  | processedSnapshots (n : ℕ)
  | createdSummary
deriving Repr, DecidableEq

/-- `capture_snapshot`: on success returns the snapshot path, bumps
`stats['snapshots_taken']` and queues the image to the media uploader; on
failure (`None`) leaves the state unchanged. -/
def capture_snapshot (s : CamState) (snap : Option String) :
    CamState × Option String × List Act :=
  match snap with
  | none => (s, none, [])
  | some p =>
      ({ s with stats := { s.stats with snapshots_taken := s.stats.snapshots_taken + 1 } },
       some p,
       if s.has_media_uploader then [Act.queuedSnapshot p] else [])

/-- `SmartCamera._start_recording`: under the recording lock, a no-op when a
session is already active; otherwise opens the output, starts the circular
output drain and creates the session with `start_time = now`. `start_ok`
models whether the file open / output start raises (the `except` clause only
re-assigns `is_recording = False`). -/
def start_recording (s : CamState) (trigger_type : String) (now : ℚ) (start_ok : Bool) :
    CamState × List Act :=
  if s.is_recording = true then (s, [])
  else if start_ok = false then ({ s with is_recording := false }, [])
  else
    let filepath : RecPath := { site := s.site_id, kind := "video",
                                trigger := trigger_type, time := now }
    ({ s with is_recording := true,
              current_recording_path := some filepath,
              recording_start_time := some now },
     [Act.startedRecording filepath])

/-- `SmartCamera._stop_recording`: under the recording lock, a no-op when no
session is active; otherwise stops the output, accumulates the statistics,
stamps `last_recording_end_time`, queues the video for upload and clears the
session. `stop_ok = false` models `circular_output.stop()` raising (the
`except` clause only re-assigns `is_recording = False`); a session whose path
or start time is missing raises while logging, after the statistics were
already updated, and is likewise caught. -/
def stop_recording (s : CamState) (now : ℚ) (stop_ok : Bool) : CamState × List Act :=
  if s.is_recording = false then (s, [])
  else if stop_ok = false then ({ s with is_recording := false }, [])
  else
    let duration : ℚ :=
      match s.recording_start_time with
      | some t0 => now - t0
      | none => 0
    let s1 := { s with
      stats := { s.stats with
        total_recording_seconds := s.stats.total_recording_seconds +
          (if pyTruthyQ s.recording_start_time then pyInt duration else 0),
        recordings_saved := s.stats.recordings_saved + 1 },
      last_recording_end_time := now }
    if s.current_recording_path = none ∨ pyTruthyQ s.recording_start_time = false then
      ({ s1 with is_recording := false }, [])
    else
      let acts :=
        match s.current_recording_path, s.has_media_uploader with
        | some p, true => [Act.queuedVideo p]
        | _, _ => []
      ({ s1 with is_recording := false,
                 current_recording_path := none,
                 recording_start_time := none }, acts)

/-- The contours of the frame that exceed `motion_min_area`
(`significant_contours` in the loop). -/
def significantContours (s : CamState) (env : Env) : List Contour :=
  env.contours.filter fun c => contourArea c > s.motion_min_area

/-- The peak-snapshot timing condition of the loop:
`self.recording_start_time and (time.time() - self.recording_start_time) > 30`. -/
def peakDue (s : CamState) (now : ℚ) : Bool :=
  match s.recording_start_time with
  | none => false
  | some t0 => decide (t0 ≠ 0) && decide (now - t0 > 30)

/-- The per-frame classification update of the motion branch: the
significant contours are remembered and `classify_event` is re-run,
updating `current_event_classification` continuously during motion. -/
noncomputable def classifyStep (s : CamState) (significant : List Contour) (env : Env) :
    CamState :=
  let rc := classify_event significant env.frame_shape env.nowDT s.classifier
  { s with current_event_contours := significant,
           current_event_classification := some rc.1,
           classifier := rc.2 }

/-- The peak-snapshot paragraph of the motion branch: after 30 seconds of
recording, attempt the peak snapshot once. -/
def peakStep (motion_detected : Bool) (s0 : CamState) (env : Env) : CamState × List Act :=
  if motion_detected = true ∧ s0.snapshot_peak_captured = false ∧
      peakDue s0 env.now = true then
    let cap := capture_snapshot s0 env.snap_result
    let acts := Act.snapAttempt "peak" :: cap.2.2
    match cap.2.1 with
    | some p =>
        ({ cap.1 with event_snapshots_raw := cap.1.event_snapshots_raw ++ [p],
                      snapshot_peak_captured := true }, acts)
    | none => (cap.1, acts)
  else (s0, [])

/-- The debounced-trigger paragraph of the motion branch: once
`motion_trigger_threshold` consecutive motion frames are seen while idle and
the cooldown since the previous recording has elapsed, reset the per-event
snapshot state, start recording, and attempt the start snapshot. Returns the
new camera state, the new `motion_detected` flag, and the emissions. -/
def trigStep (motion_detected : Bool) (cw : ℕ) (s1 : CamState) (env : Env) :
    CamState × Bool × List Act :=
  if motion_detected = false ∧ cw ≥ motion_trigger_threshold then
    if env.now - s1.last_recording_end_time ≥ s1.motion_cooldown then
      let s2 := { s1 with
        last_motion_time := some env.nowDT.epoch,
        stats := { s1.stats with motion_events := s1.stats.motion_events + 1 },
        event_snapshots := [], event_snapshots_raw := [],
        snapshot_start_captured := false, snapshot_peak_captured := false }
      let st := start_recording s2 "motion" env.now env.start_ok
      let cap := capture_snapshot st.1 env.snap_result
      let acts := st.2 ++ Act.snapAttempt "start" :: cap.2.2
      match cap.2.1 with
      | some p =>
          ({ cap.1 with event_snapshots_raw := cap.1.event_snapshots_raw ++ [p],
                        snapshot_start_captured := true }, true, acts)
      | none => (cap.1, true, acts)
    else (s1, motion_detected, [])
  else (s1, motion_detected, [])

/-- The motion / no-motion section of one processed pass of
`_motion_detection_loop` (the debounce counters, per-frame classification,
peak snapshot, and the debounced recording trigger with its start
snapshot). -/
noncomputable def motionBlock (ls : LoopState) (env : Env) : LoopState × List Act :=
  let significant := significantContours ls.cam env
  if significant = [] then
    ({ ls with consecutive_frames_with_motion := 0,
               consecutive_frames_without_motion := ls.consecutive_frames_without_motion + 1 },
     [])
  else
    let cw := ls.consecutive_frames_with_motion + 1
    let s0 := classifyStep ls.cam significant env
    let p := peakStep ls.motion_detected s0 env
    let t := trigStep ls.motion_detected cw p.1 env
    ({ ls with cam := t.1,
               consecutive_frames_with_motion := cw,
               consecutive_frames_without_motion := 0,
               motion_detected := t.2.1 },
     p.2 ++ t.2.2)

/-- The store/log/publish paragraph shared by the motion-ended and
safety-limit sections: when a classification for the current event exists,
it is stored in the classifier database, counted, logged to the
surveillance log and published to the cloud. -/
def storeEventStep (s : CamState) : CamState × List Act :=
  match s.current_event_classification with
  | some c =>
      ({ s with stats := { s.stats with classified_events := s.stats.classified_events + 1 } },
       [Act.storedEvent c, Act.loggedEvent c, Act.publishedEvent c])
  | none => (s, [])

/-- The per-event state reset shared by the motion-ended and safety-limit
sections (the raw snapshot list is notably *not* reset here). -/
def resetEventState (s : CamState) : CamState :=
  { s with current_event_classification := none,
           current_event_contours := [],
           event_snapshots := [],
           classifier := reset_motion_tracking s.classifier }

/-- The snapshot-processing paragraph of the motion-ended section. -/
def procSnapsStep (s1 : CamState) (env : Env) : CamState × List Act :=
  if s1.current_event_classification.isSome = true ∧ s1.event_snapshots_raw ≠ [] then
    let processed := s1.event_snapshots_raw.filterMap env.process_snap
    let s2 := { s1 with event_snapshots := s1.event_snapshots ++ processed }
    let sumActs := if s2.event_snapshots.length = 3 then [Act.createdSummary] else []
    (s2, Act.processedSnapshots processed.length :: sumActs)
  else (s1, [])

/-- The "motion ended" section of one processed pass: once no qualifying
motion was seen for more than `post_record_seconds * 30` processed frames,
capture the end snapshot, process the raw snapshots, store/log/publish the
classified event, stop the recording, and reset the per-event state. -/
def motionEndBlock (ls : LoopState) (env : Env) : LoopState × List Act :=
  if ls.motion_detected = true ∧
      (ls.consecutive_frames_without_motion : ℚ) > ls.cam.post_record_seconds * 30 then
    let cap := capture_snapshot ls.cam env.snap_result
    let s1 :=
      match cap.2.1 with
      | some p => { cap.1 with event_snapshots_raw := cap.1.event_snapshots_raw ++ [p] }
      | none => cap.1
    let endActs := Act.snapAttempt "end" :: cap.2.2
    let pr := procSnapsStep s1 env
    let st := storeEventStep pr.1
    let stopStep := stop_recording st.1 env.now env.stop_ok
    ({ ls with cam := resetEventState stopStep.1, motion_detected := false,
               consecutive_frames_with_motion := 0 },
     endActs ++ pr.2 ++ st.2 ++ stopStep.2)
  else (ls, [])

/-- The loop's output-file size probe: exceeded only when a recording path
is set, the file exists and `getsize` succeeds, and the size is *strictly*
greater than `max_file_size_bytes`. -/
def file_size_exceeded (s : CamState) (env : Env) : Bool :=
  match s.current_recording_path, env.file_size with
  | some _, some sz => decide ((sz : ℚ) > s.max_file_size_bytes)
  | _, _ => false

/-- The safety-limit section of one processed pass (lines 589-655): while a
session is active, if the elapsed duration reaches `max_record_duration` or
the probed output file size strictly exceeds `max_file_size_bytes`, the event
is stored/logged/published (when a classification exists) and the recording
is force-stopped. No end snapshot is captured on this path. -/
def safetyBlock (ls : LoopState) (env : Env) : LoopState × List Act :=
  let s := ls.cam
  if s.is_recording = true ∧ pyTruthyQ s.recording_start_time = true then
    let recording_duration := env.now - s.recording_start_time.getD 0
    if recording_duration ≥ s.max_record_duration ∨ file_size_exceeded s env = true then
      let st := storeEventStep s
      let stopStep := stop_recording st.1 env.now env.stop_ok
      ({ ls with cam := resetEventState stopStep.1, motion_detected := false },
       st.2 ++ stopStep.2)
    else (ls, [])
  else (ls, [])

/-- One processed pass of `_motion_detection_loop` (a pass that survives the
low-risk-hours and frame-skip `continue` guards): the three sequential
sections of the loop body, with the emitted actions concatenated in program
order. -/
noncomputable def processFrame (ls : LoopState) (env : Env) : LoopState × List Act :=
  let m := motionBlock ls env
  let e := motionEndBlock m.1 env
  let f := safetyBlock e.1 env
  (f.1, m.2 ++ e.2 ++ f.2)

/-! ## Shared helper definitions and lemmas -/

/-- The category selection of the spec's combination rule, stated from the
spec's words (priority order, first match wins) for comparison with the
source's `combine_classifications`. -/
def specCombinedCategory (time_class size_class pattern_class : String)
    (duration_seconds : ℚ) : String :=
  if time_class = "business_hours" ∧ size_class = "large" ∧ duration_seconds > 120 then
    "maintenance_visit"
  else if size_class = "small" ∧ duration_seconds < 30 then "animal"
  else if size_class = "small" then "animal"
  else if time_class = "off_hours" then "security_breach"
  else if time_class = "business_hours" ∧ size_class = "large" ∧
      pattern_class = "sustained" then "maintenance_visit"
  else if time_class = "business_hours" ∧ pattern_class = "erratic" then "animal"
  else if time_class = "business_hours" then "maintenance_visit"
  else "security_breach"

/-- Recognizer for `storedEvent` actions (the per-event persistence of one
EventClassification). -/
def isStoredAct : Act → Bool
  | .storedEvent _ => true
  | _ => false

/-- An idle base camera state used to instantiate witnesses. -/
def baseCam : CamState :=
  { motion_min_area := 500, motion_cooldown := 5, pre_record_seconds := 10,
    post_record_seconds := 10, max_record_duration := 60,
    max_file_size_bytes := 52428800, site_id := "SITE", has_media_uploader := false,
    is_recording := false, current_recording_path := none, recording_start_time := none,
    last_motion_time := none, last_recording_end_time := 0,
    stats := { motion_events := 0, recordings_saved := 0, snapshots_taken := 0,
               total_recording_seconds := 0, classified_events := 0 },
    current_event_classification := none, current_event_contours := [],
    event_snapshots := [], event_snapshots_raw := [],
    snapshot_start_captured := false, snapshot_peak_captured := false,
    classifier := initClassifierState }

/-- A concrete active recording session used to instantiate witnesses. -/
def busyCam : CamState :=
  { baseCam with
    is_recording := true,
    recording_start_time := some 5,
    current_recording_path :=
      some { site := "SITE", kind := "video", trigger := "motion", time := 5 } }

/-- A configuration asking for a 1 MiB file-size limit. -/
def cfgSmallLimit : Config := fun k =>
  if k = "pi_camera.recording.max_file_size_bytes" then some 1048576 else none

/-- A configuration asking for a 100 MiB file-size limit. -/
def cfgLargeLimit : Config := fun k =>
  if k = "pi_camera.recording.max_file_size_bytes" then some 104857600 else none

/-- A per-tick environment with no motion, no snapshot results and healthy
encoder calls, used to instantiate witnesses. -/
def quietEnv : Env :=
  { now := 100, nowDT := { hour := 10, weekday := 2, epoch := 100 },
    contours := [], frame_shape := (480, 640), file_size := none,
    snap_result := none, process_snap := fun _ => none,
    start_ok := true, stop_ok := true }

/-- A single qualifying motion contour (area 600 against the default
`motion_min_area = 500`). -/
def motionContour : Contour := { area := 600, m00 := 600, m10 := 60000, m01 := 30000 }

/-- A per-tick environment with one qualifying motion contour. -/
def motionEnv : Env := { quietEnv with contours := [motionContour] }

/-- An idle loop state (no event in progress, counters at zero). -/
def idleLoop : LoopState :=
  { cam := baseCam, consecutive_frames_without_motion := 0,
    consecutive_frames_with_motion := 0, motion_detected := false }

/-- A concrete classification record for a current event. -/
def sampleClassification : ClassResult :=
  { event_type := "security_breach", confidence_score := 0.75, motion_area := 600,
    motion_pattern := "initializing", time_classification := "off_hours",
    size_classification := "small",
    timestamp := { hour := 23, weekday := 5, epoch := 5 } }

/-- A camera state in mid-event: session active since `t = 5`, peak snapshot
already captured, current event already classified. -/
def recCam : CamState :=
  { busyCam with current_event_classification := some sampleClassification,
                 snapshot_peak_captured := true }

/-- A loop state in mid-event over `recCam`. -/
def recLoop : LoopState :=
  { cam := recCam, consecutive_frames_without_motion := 0,
    consecutive_frames_with_motion := 3, motion_detected := true }

/-- A quiet environment at `now = 100`: the 60-second duration limit of a
session started at `t = 5` has long been exceeded. -/
def limitEnv : Env := { quietEnv with now := 100 }

/-- An environment at `now = 30` whose probed file size is *exactly* the
50 MiB limit. -/
def boundaryEnv : Env := { quietEnv with now := 30, file_size := some 52428800 }

/-- An environment with unending motion at `now = 100`. -/
def recMotionEnv : Env :=
  { quietEnv with now := 100, contours := [motionContour] }

/-- A mid-event environment at `now = 20` (duration 15, below every
limit), with qualifying motion. -/
def midEnv : Env := { quietEnv with now := 20, contours := [motionContour] }

/-- A mid-event loop state whose event has not been classified yet. -/
def midLoop : LoopState :=
  { cam := { busyCam with snapshot_peak_captured := true },
    consecutive_frames_without_motion := 0,
    consecutive_frames_with_motion := 3, motion_detected := true }

/-- `_stop_recording` is a no-op when no session is active. -/
theorem stop_recording_noop (s : CamState) (now : ℚ) (ok : Bool)
    (h : s.is_recording = false) : stop_recording s now ok = (s, []) := by
  simp [stop_recording, h]

/-- Any `_stop_recording` call leaves `is_recording` false (the `except`
path included). -/
theorem stop_recording_not_recording (s : CamState) (now : ℚ) (ok : Bool) :
    (stop_recording s now ok).1.is_recording = false := by
  unfold stop_recording
  split_ifs with h1 h2 h3 <;> simp [h1]

theorem end_ne_peak : ("end" : String) ≠ "peak" := by decide

theorem end_ne_start : ("end" : String) ≠ "start" := by decide

/-- `_stop_recording` never stores a classification and never attempts an
end snapshot: its only possible emission is the video-upload handoff. -/
theorem stop_recording_acts_shape (s : CamState) (now : ℚ) (ok : Bool) :
    ((stop_recording s now ok).2.filter isStoredAct) = [] ∧
    Act.snapAttempt "end" ∉ (stop_recording s now ok).2 := by
  unfold stop_recording
  split_ifs <;>
    all_goals
      rcases hpath : s.current_recording_path with _ | p <;>
        rcases hup : s.has_media_uploader <;>
          simp [hpath, hup, isStoredAct]

/-- `capture_snapshot` touches only the snapshot statistics and possibly the
uploader queue. -/
theorem capture_snapshot_state (s : CamState) (snap : Option String) :
    (capture_snapshot s snap).1.is_recording = s.is_recording ∧
    (capture_snapshot s snap).1.recording_start_time = s.recording_start_time ∧
    (capture_snapshot s snap).1.current_recording_path = s.current_recording_path ∧
    (capture_snapshot s snap).1.current_event_classification =
      s.current_event_classification ∧
    (capture_snapshot s snap).1.max_record_duration = s.max_record_duration ∧
    (capture_snapshot s snap).1.max_file_size_bytes = s.max_file_size_bytes ∧
    (capture_snapshot s snap).1.post_record_seconds = s.post_record_seconds ∧
    (capture_snapshot s snap).1.motion_min_area = s.motion_min_area := by
  cases snap <;> simp [capture_snapshot]

/-- `capture_snapshot` emissions are at most a queued snapshot upload. -/
theorem capture_snapshot_acts_shape (s : CamState) (snap : Option String) :
    ((capture_snapshot s snap).2.2.filter isStoredAct) = [] ∧
    Act.snapAttempt "end" ∉ (capture_snapshot s snap).2.2 := by
  cases snap <;> simp [capture_snapshot, isStoredAct] <;> split_ifs <;> simp

/-- `_start_recording` emissions are at most the session-start signal. -/
theorem start_recording_acts_shape (s : CamState) (trig : String) (now : ℚ) (ok : Bool) :
    ((start_recording s trig now ok).2.filter isStoredAct) = [] ∧
    Act.snapAttempt "end" ∉ (start_recording s trig now ok).2 := by
  unfold start_recording
  split_ifs <;> simp [isStoredAct]

/-- The peak-snapshot paragraph is skipped entirely while no event is in
progress. -/
theorem peakStep_skip_idle (s0 : CamState) (env : Env) :
    peakStep false s0 env = (s0, []) := by
  simp [peakStep]

/-- The peak-snapshot paragraph leaves the recording session, the
classification and the limit settings untouched. -/
theorem peakStep_state (md : Bool) (s0 : CamState) (env : Env) :
    (peakStep md s0 env).1.is_recording = s0.is_recording ∧
    (peakStep md s0 env).1.recording_start_time = s0.recording_start_time ∧
    (peakStep md s0 env).1.current_recording_path = s0.current_recording_path ∧
    (peakStep md s0 env).1.current_event_classification =
      s0.current_event_classification ∧
    (peakStep md s0 env).1.max_record_duration = s0.max_record_duration ∧
    (peakStep md s0 env).1.max_file_size_bytes = s0.max_file_size_bytes ∧
    (peakStep md s0 env).1.post_record_seconds = s0.post_record_seconds ∧
    (peakStep md s0 env).1.motion_min_area = s0.motion_min_area := by
  unfold peakStep
  split_ifs with hp
  · cases hsnap : env.snap_result <;> simp [capture_snapshot, hsnap]
  · simp

/-- The peak-snapshot paragraph never stores a classification and never
attempts an end snapshot. -/
theorem peakStep_acts_shape (md : Bool) (s0 : CamState) (env : Env) :
    ((peakStep md s0 env).2.filter isStoredAct) = [] ∧
    Act.snapAttempt "end" ∉ (peakStep md s0 env).2 := by
  unfold peakStep
  split_ifs with hp
  · cases hsnap : env.snap_result <;>
      simp [capture_snapshot, hsnap, isStoredAct, end_ne_peak] <;>
        split_ifs <;> simp
  · simp

/-- The trigger paragraph is skipped while an event is already in
progress. -/
theorem trigStep_skip_active (cw : ℕ) (s1 : CamState) (env : Env) :
    trigStep true cw s1 env = (s1, true, []) := by
  simp [trigStep]

/-- The trigger paragraph is skipped below the debounce threshold. -/
theorem trigStep_skip_below (md : Bool) (cw : ℕ) (s1 : CamState) (env : Env)
    (h : ¬ cw ≥ motion_trigger_threshold) :
    trigStep md cw s1 env = (s1, md, []) := by
  simp [trigStep, h]

/-- The trigger paragraph never stores a classification and never attempts
an end snapshot. -/
theorem trigStep_acts_shape (md : Bool) (cw : ℕ) (s1 : CamState) (env : Env) :
    ((trigStep md cw s1 env).2.2.filter isStoredAct) = [] ∧
    Act.snapAttempt "end" ∉ (trigStep md cw s1 env).2.2 := by
  unfold trigStep
  split_ifs with h1 h2
  · cases hsnap : env.snap_result <;>
      simp [hsnap, capture_snapshot, start_recording_acts_shape, end_ne_start,
        isStoredAct] <;>
        split_ifs <;> simp
  · simp
  · simp

/-- The store/log/publish paragraph stores exactly one record when a
classification exists and nothing otherwise; it never attempts an end
snapshot and touches only the statistics. -/
theorem storeEventStep_facts (s : CamState) :
    (storeEventStep s).1.is_recording = s.is_recording ∧
    (storeEventStep s).1.recording_start_time = s.recording_start_time ∧
    (storeEventStep s).1.current_recording_path = s.current_recording_path ∧
    (storeEventStep s).1.current_event_classification =
      s.current_event_classification ∧
    ((storeEventStep s).2.filter isStoredAct).length =
      (if s.current_event_classification.isSome = true then 1 else 0) ∧
    Act.snapAttempt "end" ∉ (storeEventStep s).2 := by
  rcases h : s.current_event_classification with _ | c <;>
    simp [storeEventStep, h, isStoredAct]

/-- The snapshot-processing paragraph stores nothing, attempts no snapshot,
and leaves the session and classification untouched. -/
theorem procSnapsStep_facts (s1 : CamState) (env : Env) :
    (procSnapsStep s1 env).1.is_recording = s1.is_recording ∧
    (procSnapsStep s1 env).1.recording_start_time = s1.recording_start_time ∧
    (procSnapsStep s1 env).1.current_recording_path = s1.current_recording_path ∧
    (procSnapsStep s1 env).1.current_event_classification =
      s1.current_event_classification ∧
    ((procSnapsStep s1 env).2.filter isStoredAct) = [] ∧
    Act.snapAttempt "end" ∉ (procSnapsStep s1 env).2 := by
  unfold procSnapsStep
  split_ifs <;> simp [isStoredAct]

/-- A processed frame with no qualifying motion only resets the
consecutive-motion counter and bumps the no-motion counter. -/
theorem motionBlock_no_motion (ls : LoopState) (env : Env)
    (hm : significantContours ls.cam env = []) :
    motionBlock ls env =
      ({ ls with consecutive_frames_with_motion := 0,
                 consecutive_frames_without_motion :=
                   ls.consecutive_frames_without_motion + 1 }, []) := by
  simp [motionBlock, hm]

/-- A qualifying-motion frame observed while idle and still below the
trigger threshold: the motion counter advances, nothing is emitted, and the
recording state is untouched. -/
theorem motionBlock_idle_motion (ls : LoopState) (env : Env)
    (hmd : ls.motion_detected = false)
    (hm : significantContours ls.cam env ≠ [])
    (hcw : ls.consecutive_frames_with_motion + 1 < motion_trigger_threshold) :
    (motionBlock ls env).2 = [] ∧
    (motionBlock ls env).1.motion_detected = false ∧
    (motionBlock ls env).1.consecutive_frames_with_motion =
      ls.consecutive_frames_with_motion + 1 ∧
    (motionBlock ls env).1.consecutive_frames_without_motion = 0 ∧
    (motionBlock ls env).1.cam.is_recording = ls.cam.is_recording ∧
    (motionBlock ls env).1.cam.motion_min_area = ls.cam.motion_min_area := by
  have h3 : ¬ (ls.consecutive_frames_with_motion + 1 ≥ motion_trigger_threshold) := by
    omega
  simp only [motionBlock]
  rw [if_neg hm, hmd, peakStep_skip_idle, trigStep_skip_below _ _ _ _ h3]
  simp [classifyStep]

/-- A qualifying-motion frame observed while the event is in progress: the
classification is recomputed from the significant contours, the no-motion
counter resets, and the recording session and limit settings are
untouched. -/
theorem motionBlock_active_motion (ls : LoopState) (env : Env)
    (hmd : ls.motion_detected = true)
    (hm : significantContours ls.cam env ≠ []) :
    (motionBlock ls env).1.motion_detected = true ∧
    (motionBlock ls env).1.consecutive_frames_without_motion = 0 ∧
    (motionBlock ls env).1.cam.current_event_classification =
      some (classify_event (significantContours ls.cam env) env.frame_shape env.nowDT
        ls.cam.classifier).1 ∧
    (motionBlock ls env).1.cam.is_recording = ls.cam.is_recording ∧
    (motionBlock ls env).1.cam.recording_start_time = ls.cam.recording_start_time ∧
    (motionBlock ls env).1.cam.current_recording_path = ls.cam.current_recording_path ∧
    (motionBlock ls env).1.cam.max_record_duration = ls.cam.max_record_duration ∧
    (motionBlock ls env).1.cam.max_file_size_bytes = ls.cam.max_file_size_bytes ∧
    (motionBlock ls env).1.cam.post_record_seconds = ls.cam.post_record_seconds := by
  simp only [motionBlock]
  rw [if_neg hm, hmd, trigStep_skip_active]
  simp [peakStep_state, classifyStep]

/-- `motionBlock` never stores a classification and never attempts an end
snapshot (its snapshot attempts are tagged `peak` or `start`). -/
theorem motionBlock_acts_shape (ls : LoopState) (env : Env) :
    ((motionBlock ls env).2.filter isStoredAct) = [] ∧
    Act.snapAttempt "end" ∉ (motionBlock ls env).2 := by
  by_cases hm : significantContours ls.cam env = []
  · rw [motionBlock_no_motion ls env hm]
    simp
  · simp only [motionBlock]
    rw [if_neg hm]
    simp [peakStep_acts_shape, trigStep_acts_shape, List.filter_append]

/-- The "motion ended" section does nothing when its guard fails. -/
theorem motionEndBlock_skip (ls : LoopState) (env : Env)
    (h : ¬ (ls.motion_detected = true ∧
      (ls.consecutive_frames_without_motion : ℚ) > ls.cam.post_record_seconds * 30)) :
    motionEndBlock ls env = (ls, []) := by
  simp only [motionEndBlock]
  rw [if_neg h]

/-- When the "motion ended" section fires, the session ends up stopped, the
per-event state is reset, and at most one classification record is
stored. -/
theorem motionEndBlock_fire (ls : LoopState) (env : Env)
    (h : ls.motion_detected = true ∧
      (ls.consecutive_frames_without_motion : ℚ) > ls.cam.post_record_seconds * 30) :
    (motionEndBlock ls env).1.cam.is_recording = false ∧
    (motionEndBlock ls env).1.cam.current_event_classification = none ∧
    (motionEndBlock ls env).1.motion_detected = false ∧
    ((motionEndBlock ls env).2.filter isStoredAct).length ≤ 1 := by
  simp only [motionEndBlock]
  rw [if_pos h]
  cases hsnap : env.snap_result <;>
    simp [hsnap, capture_snapshot, resetEventState, stop_recording_not_recording,
      stop_recording_acts_shape, storeEventStep_facts, procSnapsStep_facts,
      List.filter_append, isStoredAct] <;>
      split_ifs <;> simp [isStoredAct]

/-- The safety-limit section does nothing when no session is active. -/
theorem safetyBlock_skip_idle (ls : LoopState) (env : Env)
    (h : ls.cam.is_recording = false) :
    safetyBlock ls env = (ls, []) := by
  simp [safetyBlock, h]

/-- When the safety-limit section trips, the session ends up stopped within
the same pass, the per-event state is reset, exactly one classification
record is stored when one exists, and no end snapshot is attempted. -/
theorem safetyBlock_fire (ls : LoopState) (env : Env)
    (hrec : ls.cam.is_recording = true)
    (hst : pyTruthyQ ls.cam.recording_start_time = true)
    (htrip : env.now - ls.cam.recording_start_time.getD 0 ≥ ls.cam.max_record_duration ∨
      file_size_exceeded ls.cam env = true) :
    (safetyBlock ls env).1.cam.is_recording = false ∧
    (safetyBlock ls env).1.cam.current_event_classification = none ∧
    (safetyBlock ls env).1.motion_detected = false ∧
    ((safetyBlock ls env).2.filter isStoredAct).length =
      (if ls.cam.current_event_classification.isSome = true then 1 else 0) ∧
    Act.snapAttempt "end" ∉ (safetyBlock ls env).2 := by
  simp only [safetyBlock]
  rw [if_pos ⟨hrec, hst⟩, if_pos htrip]
  simp [resetEventState, stop_recording_not_recording, stop_recording_acts_shape,
    storeEventStep_facts, List.filter_append, isStoredAct]

/-- The safety-limit section does nothing when its session guard fails. -/
theorem safetyBlock_skip_guard (ls : LoopState) (env : Env)
    (h : ¬ (ls.cam.is_recording = true ∧ pyTruthyQ ls.cam.recording_start_time = true)) :
    safetyBlock ls env = (ls, []) := by
  simp only [safetyBlock]
  rw [if_neg h]

/-- The safety-limit section does nothing when neither limit has
tripped. -/
theorem safetyBlock_no_trip (ls : LoopState) (env : Env)
    (h : ¬ (env.now - ls.cam.recording_start_time.getD 0 ≥ ls.cam.max_record_duration ∨
      file_size_exceeded ls.cam env = true)) :
    safetyBlock ls env = (ls, []) := by
  by_cases h1 : (ls.cam.is_recording = true ∧ pyTruthyQ ls.cam.recording_start_time = true)
  · simp only [safetyBlock]
    rw [if_pos h1, if_neg h]
  · exact safetyBlock_skip_guard ls env h1

/-- The file-size probe depends only on the recording path and the
configured limit. -/
theorem file_size_exceeded_congr (s1 s2 : CamState) (env : Env)
    (hp : s1.current_recording_path = s2.current_recording_path)
    (hm : s1.max_file_size_bytes = s2.max_file_size_bytes) :
    file_size_exceeded s1 env = file_size_exceeded s2 env := by
  unfold file_size_exceeded
  rw [hp, hm]

/-- The significant contours depend on the camera state only through
`motion_min_area`. -/
theorem significantContours_eq (s : CamState) (env : Env) (m : ℚ)
    (h : s.motion_min_area = m) :
    significantContours s env = env.contours.filter fun c => contourArea c > m := by
  simp [significantContours, h]

/-- An action list whose `storedEvent` filter is empty contains no
`storedEvent`. -/
theorem not_mem_of_filter_stored_nil {l : List Act}
    (h : l.filter isStoredAct = []) (c : ClassResult) : Act.storedEvent c ∉ l := by
  intro hc
  have hmem : Act.storedEvent c ∈ l.filter isStoredAct :=
    List.mem_filter.mpr ⟨hc, by simp [isStoredAct]⟩
  simp [h] at hmem

/-- The trigger paragraph never touches the current classification. -/
theorem trigStep_classification (md : Bool) (cw : ℕ) (s1 : CamState) (env : Env) :
    (trigStep md cw s1 env).1.current_event_classification =
      s1.current_event_classification := by
  unfold trigStep
  split_ifs with h1 h2
  · cases hsnap : env.snap_result <;>
      simp [start_recording, capture_snapshot, hsnap] <;> split_ifs <;> simp
  · rfl
  · rfl

/-- On every processed frame with qualifying motion, the classification is
recomputed from the frame's significant contours — also while a recording is
active, and even before one has started. -/
theorem motionBlock_classification (ls : LoopState) (env : Env)
    (hm : significantContours ls.cam env ≠ []) :
    (motionBlock ls env).1.cam.current_event_classification =
      some (classify_event (significantContours ls.cam env) env.frame_shape env.nowDT
        ls.cam.classifier).1 := by
  simp only [motionBlock]
  rw [if_neg hm]
  simp [trigStep_classification, peakStep_state, classifyStep]

/-- A processed frame with qualifying motion, observed while idle and still
below the trigger threshold, emits nothing and does not start recording. -/
theorem processFrame_idle_motion (ls : LoopState) (env : Env)
    (hmd : ls.motion_detected = false)
    (hrec : ls.cam.is_recording = false)
    (hm : significantContours ls.cam env ≠ [])
    (hcw : ls.consecutive_frames_with_motion + 1 < motion_trigger_threshold) :
    (processFrame ls env).2 = [] ∧
    (processFrame ls env).1.motion_detected = false ∧
    (processFrame ls env).1.consecutive_frames_with_motion =
      ls.consecutive_frames_with_motion + 1 ∧
    (processFrame ls env).1.cam.is_recording = false ∧
    (processFrame ls env).1.cam.motion_min_area = ls.cam.motion_min_area := by
  obtain ⟨ha, hb, hc, hd, he, hf⟩ := motionBlock_idle_motion ls env hmd hm hcw
  have hskipE : motionEndBlock (motionBlock ls env).1 env = ((motionBlock ls env).1, []) :=
    motionEndBlock_skip _ env (by rw [hb]; simp)
  have hskipS : safetyBlock (motionBlock ls env).1 env = ((motionBlock ls env).1, []) := by
    apply safetyBlock_skip_idle
    rw [he, hrec]
  simp only [processFrame, hskipE, hskipS]
  simp [ha, hb, hc, hrec, he, hf]

/-- A processed frame with no qualifying motion, observed while idle with no
active recording, emits nothing and only advances the no-motion counter. -/
theorem processFrame_no_motion_idle (ls : LoopState) (env : Env)
    (hmd : ls.motion_detected = false)
    (hrec : ls.cam.is_recording = false)
    (hm : significantContours ls.cam env = []) :
    processFrame ls env =
      ({ ls with consecutive_frames_with_motion := 0,
                 consecutive_frames_without_motion :=
                   ls.consecutive_frames_without_motion + 1 }, []) := by
  have hM := motionBlock_no_motion ls env hm
  have hskipE : motionEndBlock (motionBlock ls env).1 env =
      ((motionBlock ls env).1, []) := by
    apply motionEndBlock_skip
    rw [hM]
    intro hcon
    rw [hmd] at hcon
    simp at hcon
  have hskipS : safetyBlock (motionBlock ls env).1 env = ((motionBlock ls env).1, []) := by
    apply safetyBlock_skip_idle
    rw [hM]
    exact hrec
  simp only [processFrame, hskipE, hskipS]
  rw [hM]
  simp

/-! ## Claim C1 -/

/-- Claim C1: for every combination of sub-classification inputs, the
combination step selects the event category by testing the spec's eight
rules in priority order with first match winning. -/
theorem combine_matches_spec_rule_order (time_class size_class pattern_class : String)
    (time_conf size_conf pattern_conf duration_seconds : ℚ) :
    (combine_classifications time_class time_conf size_class size_conf
        pattern_class pattern_conf duration_seconds).1 =
      specCombinedCategory time_class size_class pattern_class duration_seconds := by
  unfold combine_classifications specCombinedCategory
    MAINTENANCE_DURATION_THRESHOLD ANIMAL_DURATION_THRESHOLD
  split_ifs <;> rfl

/-! ## Claim C8 -/

/-- Claim C8 counterexample: two configurations that differ in
`recording.max_file_size_bytes` are given the same enforced byte limit, so
the enforced limit does not come from the configuration. -/
theorem max_file_size_ignores_config :
    cfgSmallLimit "pi_camera.recording.max_file_size_bytes" ≠
      cfgLargeLimit "pi_camera.recording.max_file_size_bytes" ∧
    (recordingLimits cfgSmallLimit).max_file_size_bytes =
      (recordingLimits cfgLargeLimit).max_file_size_bytes := by
  refine ⟨?_, rfl⟩
  simp [cfgSmallLimit, cfgLargeLimit]

/-- Claim C8 (amended): the maximum recording duration is read from the
configuration key `recording.max_duration_seconds`, but the maximum output
file size used by the safety-limit check is the hard-coded constant
`50 * 1024 * 1024 = 52428800` bytes for every configuration. -/
theorem recording_limits_config_surface (config : Config) :
    (recordingLimits config).max_file_size_bytes = 52428800 ∧
    (recordingLimits config).max_record_duration =
      configGet config "pi_camera.recording.max_duration_seconds" 60 := by
  exact ⟨by norm_num [recordingLimits], rfl⟩

/-! ## Claim C9 -/

/-- Claim C9: for every configured nonnegative pre-record duration, the ring
buffer capacity in bytes equals `floor(pre_record_seconds * bitrate / 8 * 1.2)`
with the encoder's target bitrate of 2,000,000 bits/s, i.e. the pre-record
duration times the bitrate in bytes plus a 20% safety margin
(`300000 = 2000000 / 8 * 1.2` bytes per second). -/
theorem buffer_capacity_formula (pre : ℚ) (h : 0 ≤ pre) :
    bufferSizeBytes pre = ⌊pre * 2000000 / 8 * 1.2⌋ ∧
    bufferSizeBytes pre = ⌊pre * 300000⌋ := by
  have hq : pre * 2000000 / 8 * 1.2 = pre * 300000 := by ring
  have hnn : ¬ (pre * 2000000 / 8 * 1.2 < 0) := by
    rw [hq]
    exact not_lt.mpr (by positivity)
  have key : bufferSizeBytes pre = ⌊pre * 2000000 / 8 * 1.2⌋ := by
    simp [bufferSizeBytes, pyInt, hnn]
  exact ⟨key, by rw [key, hq]⟩

/-- Claim C9 witness: at the default 10-second pre-record duration the
capacity is 3,000,000 bytes. -/
theorem buffer_capacity_formula_witness :
    (0 : ℚ) ≤ 10 ∧ bufferSizeBytes 10 = ⌊(10 : ℚ) * 2000000 / 8 * 1.2⌋ :=
  ⟨by norm_num, (buffer_capacity_formula 10 (by norm_num)).1⟩

/-! ## Claim C3 -/

/-- Claim C3: at most one recording session is active at an instant — a
`_start_recording` call while a session is active is a complete no-op
(state, path and statistics unchanged, nothing emitted), and only a call
with no active session (whose output open succeeds) creates a session, with
`start_time = now`. -/
theorem start_recording_exclusive (s : CamState) (trig : String) (now : ℚ) (ok : Bool) :
    (s.is_recording = true → start_recording s trig now ok = (s, [])) ∧
    (s.is_recording = false → ok = true →
      (start_recording s trig now ok).1.is_recording = true ∧
      (start_recording s trig now ok).1.recording_start_time = some now ∧
      (start_recording s trig now ok).1.current_recording_path =
        some { site := s.site_id, kind := "video", trigger := trig, time := now } ∧
      (start_recording s trig now ok).1.stats = s.stats) := by
  constructor
  · intro h
    simp [start_recording, h]
  · intro h hok
    simp [start_recording, h, hok]

/-- Claim C3 witness: a busy state rejects the second start unchanged; an
idle state starts a session stamped with the current time. -/
theorem start_recording_exclusive_witness :
    (start_recording { baseCam with is_recording := true } "motion" 100 true =
      ({ baseCam with is_recording := true }, []) ∧
    ((start_recording baseCam "motion" 100 true).1.is_recording = true ∧
      (start_recording baseCam "motion" 100 true).1.recording_start_time = some 100 ∧
      (start_recording baseCam "motion" 100 true).1.current_recording_path =
        some { site := baseCam.site_id, kind := "video", trigger := "motion", time := 100 } ∧
      (start_recording baseCam "motion" 100 true).1.stats = baseCam.stats)) :=
  ⟨(start_recording_exclusive { baseCam with is_recording := true } "motion" 100 true).1 rfl,
   (start_recording_exclusive baseCam "motion" 100 true).2 rfl rfl⟩

/-! ## Claim C7 -/

/-- Claim C7: `_stop_recording` is idempotent — after a stop that ends an
active session, an immediately following second stop is a complete no-op:
the state (statistics included) is unchanged and nothing is emitted (no
second upload handoff, no classification). -/
theorem stop_recording_idempotent (s : CamState) (t1 t2 : ℚ) (ok1 ok2 : Bool)
    (h : s.is_recording = true) :
    (stop_recording s t1 ok1).1.is_recording = false ∧
    stop_recording (stop_recording s t1 ok1).1 t2 ok2 = ((stop_recording s t1 ok1).1, []) := by
  have h1 := stop_recording_not_recording s t1 ok1
  exact ⟨h1, stop_recording_noop _ t2 ok2 h1⟩

/-- Claim C7 witness: stopping a concrete active session twice; the second
stop changes nothing and emits nothing. -/
theorem stop_recording_idempotent_witness :
    busyCam.is_recording = true ∧
    stop_recording (stop_recording busyCam 17 true).1 18 true =
      ((stop_recording busyCam 17 true).1, []) :=
  ⟨rfl, (stop_recording_idempotent busyCam 17 18 true true rfl).2⟩

/-! ## Claim C4 -/

/-- An off-hours time classification always carries time confidence 0.9. -/
theorem classify_time_off (ts : Timestamp) (h : (classify_time ts).1 = "off_hours") :
    classify_time ts = ("off_hours", 0.9) := by
  unfold classify_time at h ⊢
  split_ifs at h ⊢ with hc
  · simp at h
  · rfl

/-- A `large` size classification carries a size confidence in
`[0.6, 0.95]`. -/
theorem classify_size_large_conf (contours : List Contour) (fa : ℚ)
    (h : (classify_size contours fa).1 = "large") :
    0.6 ≤ (classify_size contours fa).2.1 ∧ (classify_size contours fa).2.1 ≤ 0.95 := by
  simp only [classify_size, ANIMAL_SIZE_THRESHOLD, MAINTENANCE_SIZE_THRESHOLD] at h ⊢
  split_ifs at h ⊢ with h0 h1 h2
  · simp at h
  · simp at h
  · refine ⟨le_min (by norm_num) (by nlinarith), min_le_left _ _⟩
  · simp at h

/-- A `small` size classification carries a size confidence of at least
0.5. -/
theorem classify_size_small_conf (contours : List Contour) (fa : ℚ)
    (h : (classify_size contours fa).1 = "small") :
    0.5 ≤ (classify_size contours fa).2.1 := by
  simp only [classify_size, ANIMAL_SIZE_THRESHOLD, MAINTENANCE_SIZE_THRESHOLD] at h ⊢
  split_ifs at h ⊢ with h0 h1
  · simp at h
  · exact le_min (by norm_num) (by nlinarith)
  · simp at h
  · simp at h

/-- Claim C4: (a) every input classified `off_hours` in time and `large` in
size yields `security_breach` with confidence in `[0, 0.90]`, for any motion
pattern and duration; (b) every input classified `small` in size with event
duration 10 seconds yields `animal` with confidence at least 0.5. -/
theorem classifier_determinism :
    (∀ (ts : Timestamp) (contours : List Contour) (fa : ℚ)
        (pattern_class : String) (pattern_conf duration_seconds : ℚ),
      (classify_time ts).1 = "off_hours" →
      (classify_size contours fa).1 = "large" →
      (combine_classifications (classify_time ts).1 (classify_time ts).2
          (classify_size contours fa).1 (classify_size contours fa).2.1
          pattern_class pattern_conf duration_seconds).1 = EVENT_SECURITY ∧
      0 ≤ (combine_classifications (classify_time ts).1 (classify_time ts).2
          (classify_size contours fa).1 (classify_size contours fa).2.1
          pattern_class pattern_conf duration_seconds).2 ∧
      (combine_classifications (classify_time ts).1 (classify_time ts).2
          (classify_size contours fa).1 (classify_size contours fa).2.1
          pattern_class pattern_conf duration_seconds).2 ≤ 0.90) ∧
    (∀ (ts : Timestamp) (contours : List Contour) (fa : ℚ)
        (pattern_class : String) (pattern_conf : ℚ),
      (classify_size contours fa).1 = "small" →
      (combine_classifications (classify_time ts).1 (classify_time ts).2
          (classify_size contours fa).1 (classify_size contours fa).2.1
          pattern_class pattern_conf 10).1 = EVENT_ANIMAL ∧
      0.5 ≤ (combine_classifications (classify_time ts).1 (classify_time ts).2
          (classify_size contours fa).1 (classify_size contours fa).2.1
          pattern_class pattern_conf 10).2) := by
  constructor
  · intro ts contours fa pattern_class pattern_conf duration_seconds htc hsc
    obtain ⟨hs1, hs2⟩ := classify_size_large_conf contours fa hsc
    have ht2 : (classify_time ts).2 = 0.9 := by rw [classify_time_off ts htc]
    rw [htc, ht2, hsc]
    have hOB : ("off_hours" : String) = "business_hours" ↔ False :=
      iff_false_intro (by decide)
    have hLS : ("large" : String) = "small" ↔ False := iff_false_intro (by decide)
    have hmain : combine_classifications "off_hours" 0.9 "large"
        (classify_size contours fa).2.1 pattern_class pattern_conf duration_seconds =
        (EVENT_SECURITY, min 0.90 (0.9 * 0.5 + (classify_size contours fa).2.1 * 0.5)) := by
      norm_num [combine_classifications, hOB, hLS]
    rw [hmain]
    exact ⟨rfl, le_min (by norm_num) (by nlinarith), min_le_left _ _⟩
  · intro ts contours fa pattern_class pattern_conf hsc
    have hs1 := classify_size_small_conf contours fa hsc
    rw [hsc]
    have hSL : ("small" : String) = "large" ↔ False := iff_false_intro (by decide)
    have hmain : combine_classifications (classify_time ts).1 (classify_time ts).2 "small"
        (classify_size contours fa).2.1 pattern_class pattern_conf 10 =
        (EVENT_ANIMAL, min 0.92 ((classify_size contours fa).2.1 * 0.6 + 0.4)) := by
      norm_num [combine_classifications, ANIMAL_DURATION_THRESHOLD,
        MAINTENANCE_DURATION_THRESHOLD, hSL]
    rw [hmain]
    exact ⟨rfl, le_min (by norm_num) (by nlinarith)⟩

/-- Claim C4 witness: an 11 PM Saturday timestamp with a large contour gives
`security_breach` with confidence in `[0, 0.90]`; a small contour with
duration 10 seconds gives `animal` with confidence at least 0.5. -/
theorem classifier_determinism_witness :
    ((classify_time { hour := 23, weekday := 5, epoch := 0 }).1 = "off_hours" ∧
      (classify_size [{ area := 100000, m00 := 100000, m10 := 0, m01 := 0 }] 307200).1 =
        "large" ∧
      (combine_classifications
          (classify_time { hour := 23, weekday := 5, epoch := 0 }).1
          (classify_time { hour := 23, weekday := 5, epoch := 0 }).2
          (classify_size [{ area := 100000, m00 := 100000, m10 := 0, m01 := 0 }] 307200).1
          (classify_size [{ area := 100000, m00 := 100000, m10 := 0, m01 := 0 }] 307200).2.1
          "steady" 0.5 40).1 = EVENT_SECURITY) ∧
    ((classify_size [{ area := 1000, m00 := 1000, m10 := 0, m01 := 0 }] 307200).1 =
        "small" ∧
      (combine_classifications
          (classify_time { hour := 23, weekday := 5, epoch := 0 }).1
          (classify_time { hour := 23, weekday := 5, epoch := 0 }).2
          (classify_size [{ area := 1000, m00 := 1000, m10 := 0, m01 := 0 }] 307200).1
          (classify_size [{ area := 1000, m00 := 1000, m10 := 0, m01 := 0 }] 307200).2.1
          "steady" 0.5 10).1 = EVENT_ANIMAL) :=
  ⟨⟨by decide,
    by norm_num [classify_size, largestContourArea, contourArea, totalContourArea,
      ANIMAL_SIZE_THRESHOLD, MAINTENANCE_SIZE_THRESHOLD],
    (classifier_determinism.1 { hour := 23, weekday := 5, epoch := 0 }
      [{ area := 100000, m00 := 100000, m10 := 0, m01 := 0 }] 307200
      "steady" 0.5 40 (by decide)
      (by norm_num [classify_size, largestContourArea, contourArea, totalContourArea,
        ANIMAL_SIZE_THRESHOLD, MAINTENANCE_SIZE_THRESHOLD])).1⟩,
   ⟨by norm_num [classify_size, largestContourArea, contourArea, totalContourArea,
      ANIMAL_SIZE_THRESHOLD, MAINTENANCE_SIZE_THRESHOLD],
    (classifier_determinism.2 { hour := 23, weekday := 5, epoch := 0 }
      [{ area := 1000, m00 := 1000, m10 := 0, m01 := 0 }] 307200
      "steady" 0.5
      (by norm_num [classify_size, largestContourArea, contourArea, totalContourArea,
        ANIMAL_SIZE_THRESHOLD, MAINTENANCE_SIZE_THRESHOLD])).1⟩⟩

/-! ## Claim C10 -/

/-- Claim C10 counterexample: a non-empty contour list of zero total area is
classified `small` (confidence 0.9), not `unknown`, and with duration 0 the
event type becomes `animal` even during business hours — so zero-area
contours do not behave like the empty list. -/
theorem classify_event_zero_area_counterexample :
    (classify_event [{ area := 0, m00 := 0, m10 := 0, m01 := 0 }] (480, 640)
        { hour := 10, weekday := 2, epoch := 1000 }
        initClassifierState).1.size_classification = "small" ∧
    (classify_event [{ area := 0, m00 := 0, m10 := 0, m01 := 0 }] (480, 640)
        { hour := 10, weekday := 2, epoch := 1000 }
        initClassifierState).1.event_type = "animal" := by
  constructor <;>
    norm_num [classify_event, classify_time, classify_size, classify_motion_pattern,
      combine_classifications, totalContourArea, largestContourArea, contourArea,
      frameArea, initClassifierState, ANIMAL_SIZE_THRESHOLD, MAINTENANCE_SIZE_THRESHOLD,
      ANIMAL_DURATION_THRESHOLD, MAINTENANCE_DURATION_THRESHOLD, BUSINESS_START_HOUR,
      BUSINESS_END_HOUR, BUSINESS_DAYS, EVENT_ANIMAL]

/-- Claim C10 (amended): for every frame shape, timestamp and classifier
state, `classify_event` on an *empty* contour list returns a complete record
with size classification `unknown` (size confidence 0), motion pattern
`unknown`, motion area 0, and an event type decided by the time rules alone
(`maintenance_visit` during business hours, else `security_breach`). A
non-empty contour list of zero total area instead gets size `small` with a
zero-division area fraction of 0, while its pattern is still `unknown`. -/
theorem classify_event_empty_contours (frame_shape : ℕ × ℕ) (ts : Timestamp)
    (st : ClassifierState) :
    classify_size [] (frameArea st) = ("unknown", 0, 0) ∧
    (classify_event [] frame_shape ts st).1.size_classification = "unknown" ∧
    (classify_event [] frame_shape ts st).1.motion_pattern = "unknown" ∧
    (classify_event [] frame_shape ts st).1.motion_area = 0 ∧
    (classify_event [] frame_shape ts st).1.event_type =
      (if (classify_time ts).1 = "business_hours" then EVENT_MAINTENANCE
       else EVENT_SECURITY) := by
  have hUL : ("unknown" : String) = "large" ↔ False := iff_false_intro (by decide)
  have hUS : ("unknown" : String) = "small" ↔ False := iff_false_intro (by decide)
  have hUE : ("unknown" : String) = "erratic" ↔ False := iff_false_intro (by decide)
  have hOB : ("off_hours" : String) = "business_hours" ↔ False :=
    iff_false_intro (by decide)
  refine ⟨by simp [classify_size], ?_, ?_, ?_, ?_⟩ <;>
  · unfold classify_event classify_time
    split_ifs <;>
      simp_all [classify_motion_pattern, classify_size, combine_classifications,
        hUL, hUS, hUE, hOB, EVENT_MAINTENANCE, EVENT_SECURITY]

/-! ## Claim C6 -/

/-- Claim C6: qualifying motion on `trigger_threshold - 1 = 2` consecutive
processed frames followed by a motion-free frame never starts a recording:
nothing at all is emitted across the three passes (in particular no
recording start), the consecutive-motion counter is back at zero after the
motion-free frame, and no recording is active. -/
theorem debounce_below_threshold_never_starts (ls : LoopState) (e1 e2 e3 : Env)
    (hmd : ls.motion_detected = false)
    (hcw : ls.consecutive_frames_with_motion = 0)
    (hrec : ls.cam.is_recording = false)
    (h1 : e1.contours.filter (fun c => contourArea c > ls.cam.motion_min_area) ≠ [])
    (h2 : e2.contours.filter (fun c => contourArea c > ls.cam.motion_min_area) ≠ [])
    (h3 : e3.contours.filter (fun c => contourArea c > ls.cam.motion_min_area) = []) :
    (processFrame ls e1).2 = [] ∧
    (processFrame (processFrame ls e1).1 e2).2 = [] ∧
    (processFrame (processFrame (processFrame ls e1).1 e2).1 e3).2 = [] ∧
    (processFrame (processFrame (processFrame ls e1).1 e2).1 e3).1.cam.is_recording
      = false ∧
    (processFrame (processFrame (processFrame ls e1).1 e2).1
      e3).1.consecutive_frames_with_motion = 0 ∧
    (processFrame (processFrame (processFrame ls e1).1 e2).1 e3).1.motion_detected
      = false := by
  have hm1 : significantContours ls.cam e1 ≠ [] := by
    rw [significantContours_eq ls.cam e1 ls.cam.motion_min_area rfl]
    exact h1
  have hcw1 : ls.consecutive_frames_with_motion + 1 < motion_trigger_threshold := by
    rw [hcw]
    decide
  obtain ⟨p1, q1, r1, s1, m1⟩ := processFrame_idle_motion ls e1 hmd hrec hm1 hcw1
  have hm2 : significantContours (processFrame ls e1).1.cam e2 ≠ [] := by
    rw [significantContours_eq _ _ ls.cam.motion_min_area m1]
    exact h2
  have hcw2 : (processFrame ls e1).1.consecutive_frames_with_motion + 1 <
      motion_trigger_threshold := by
    rw [r1, hcw]
    decide
  obtain ⟨p2, q2, r2, s2, m2⟩ :=
    processFrame_idle_motion (processFrame ls e1).1 e2 q1 s1 hm2 hcw2
  have hm3 : significantContours (processFrame (processFrame ls e1).1 e2).1.cam e3
      = [] := by
    rw [significantContours_eq _ _ ls.cam.motion_min_area (by rw [m2, m1])]
    exact h3
  have t3 := processFrame_no_motion_idle (processFrame (processFrame ls e1).1 e2).1 e3
    q2 s2 hm3
  refine ⟨p1, p2, ?_, ?_, ?_, ?_⟩ <;> rw [t3] <;> simp [s2, q2]

/-- Claim C6 witness: from the idle base state, two frames with a
600-pixel contour followed by a quiet frame emit nothing and leave the
camera idle and unstarted. -/
theorem debounce_below_threshold_never_starts_witness :
    (motionEnv.contours.filter
        (fun c => contourArea c > idleLoop.cam.motion_min_area) ≠ [] ∧
      quietEnv.contours.filter
        (fun c => contourArea c > idleLoop.cam.motion_min_area) = []) ∧
    ((processFrame idleLoop motionEnv).2 = [] ∧
      (processFrame (processFrame idleLoop motionEnv).1 motionEnv).2 = [] ∧
      (processFrame (processFrame (processFrame idleLoop motionEnv).1 motionEnv).1
        quietEnv).2 = [] ∧
      (processFrame (processFrame (processFrame idleLoop motionEnv).1 motionEnv).1
        quietEnv).1.cam.is_recording = false ∧
      (processFrame (processFrame (processFrame idleLoop motionEnv).1 motionEnv).1
        quietEnv).1.consecutive_frames_with_motion = 0 ∧
      (processFrame (processFrame (processFrame idleLoop motionEnv).1 motionEnv).1
        quietEnv).1.motion_detected = false) :=
  ⟨⟨by norm_num [motionEnv, quietEnv, motionContour, idleLoop, baseCam, contourArea],
    by norm_num [quietEnv]⟩,
   debounce_below_threshold_never_starts idleLoop motionEnv motionEnv quietEnv rfl rfl rfl
    (by norm_num [motionEnv, quietEnv, motionContour, idleLoop, baseCam, contourArea])
    (by norm_num [motionEnv, quietEnv, motionContour, idleLoop, baseCam, contourArea])
    (by norm_num [quietEnv])⟩

/-! ## Claim C2 -/

/-- Claim C2 (amended): while a session is active during an event, on any
processed pass in which the elapsed duration has reached
`max_record_duration` or the probed output file size *strictly exceeds*
`max_file_size_bytes`, the recording is force-stopped within that pass and
exactly one classification record is stored for the truncated event — but
no `end` snapshot is attempted on this path. -/
theorem forced_stop_on_limit (ls : LoopState) (env : Env) (t0 : ℚ)
    (hmd : ls.motion_detected = true)
    (hrec : ls.cam.is_recording = true)
    (hst : ls.cam.recording_start_time = some t0)
    (ht0 : t0 ≠ 0)
    (hm : significantContours ls.cam env ≠ [])
    (hpost : 0 ≤ ls.cam.post_record_seconds)
    (htrip : env.now - t0 ≥ ls.cam.max_record_duration ∨
      file_size_exceeded ls.cam env = true) :
    (processFrame ls env).1.cam.is_recording = false ∧
    ((processFrame ls env).2.filter isStoredAct).length = 1 ∧
    Act.snapAttempt "end" ∉ (processFrame ls env).2 := by
  obtain ⟨hA, hB, hC, hD, hE, hF, hG, hH, hI⟩ := motionBlock_active_motion ls env hmd hm
  have hskipE : motionEndBlock (motionBlock ls env).1 env =
      ((motionBlock ls env).1, []) := by
    apply motionEndBlock_skip
    rw [hB, hI]
    intro hcon
    have h0 : ((0 : ℕ) : ℚ) > ls.cam.post_record_seconds * 30 := hcon.2
    rw [Nat.cast_zero] at h0
    nlinarith
  have hrec' : (motionBlock ls env).1.cam.is_recording = true := by rw [hD, hrec]
  have hst' : pyTruthyQ (motionBlock ls env).1.cam.recording_start_time = true := by
    rw [hE, hst]
    simp [pyTruthyQ, ht0]
  have htrip' : env.now - (motionBlock ls env).1.cam.recording_start_time.getD 0 ≥
      (motionBlock ls env).1.cam.max_record_duration ∨
      file_size_exceeded (motionBlock ls env).1.cam env = true := by
    rw [hE, hst, hG, file_size_exceeded_congr _ ls.cam env hF hH]
    simpa using htrip
  obtain ⟨sA, sB, sC, sD, sE⟩ := safetyBlock_fire (motionBlock ls env).1 env hrec' hst' htrip'
  have hcnt : ((safetyBlock (motionBlock ls env).1 env).2.filter isStoredAct).length
      = 1 := by
    rw [sD, hC]
    simp
  refine ⟨?_, ?_, ?_⟩
  · simp only [processFrame, hskipE]
    exact sA
  · simp only [processFrame, hskipE]
    simp [List.filter_append, (motionBlock_acts_shape ls env).1, hcnt]
  · simp only [processFrame, hskipE]
    simp [(motionBlock_acts_shape ls env).2, sE]

/-- Claim C2 counterexample: on a pass at `now = 100` over a session started
at `t = 5` with `max_record_duration = 60`, the recording is stopped and the
classification stored once, but no `end` snapshot is attempted — and on a
pass whose probed file size is *exactly* `max_file_size_bytes`, the
recording is not stopped at all, so "reached" (`≥`) is wrong for the size
limit. -/
theorem forced_stop_counterexample :
    ((processFrame recLoop limitEnv).1.cam.is_recording = false ∧
      ((processFrame recLoop limitEnv).2.filter isStoredAct).length = 1 ∧
      Act.snapAttempt "end" ∉ (processFrame recLoop limitEnv).2) ∧
    (processFrame recLoop boundaryEnv).1.cam.is_recording = true := by
  constructor
  · have hM := motionBlock_no_motion recLoop limitEnv (by norm_num
      [significantContours, recLoop, recCam, busyCam, baseCam, limitEnv, quietEnv])
    have hskipE : motionEndBlock (motionBlock recLoop limitEnv).1 limitEnv =
        ((motionBlock recLoop limitEnv).1, []) := by
      apply motionEndBlock_skip
      rw [hM]
      intro hcon
      have h1 : ((1 : ℕ) : ℚ) > (10 : ℚ) * 30 := by
        simpa [recLoop, recCam, busyCam, baseCam] using hcon.2
      norm_num at h1
    obtain ⟨sA, sB, sC, sD, sE⟩ := safetyBlock_fire (motionBlock recLoop limitEnv).1
      limitEnv
      (by rw [hM]; rfl)
      (by rw [hM]; norm_num [recLoop, recCam, busyCam, baseCam, pyTruthyQ])
      (by
        rw [hM]
        left
        norm_num [recLoop, recCam, busyCam, baseCam, limitEnv, quietEnv])
    have hMacts : (motionBlock recLoop limitEnv).2 = [] := by rw [hM]
    have hcls : (motionBlock recLoop
        limitEnv).1.cam.current_event_classification.isSome = true := by
      rw [hM]
      rfl
    refine ⟨?_, ?_, ?_⟩
    · simp only [processFrame, hskipE]
      exact sA
    · simp only [processFrame, hskipE]
      simp [List.filter_append, hMacts, sD, hcls]
    · simp only [processFrame, hskipE]
      simp [hMacts, sE]
  · have hM := motionBlock_no_motion recLoop boundaryEnv (by norm_num
      [significantContours, recLoop, recCam, busyCam, baseCam, boundaryEnv, quietEnv])
    have hskipE : motionEndBlock (motionBlock recLoop boundaryEnv).1 boundaryEnv =
        ((motionBlock recLoop boundaryEnv).1, []) := by
      apply motionEndBlock_skip
      rw [hM]
      intro hcon
      have h1 : ((1 : ℕ) : ℚ) > (10 : ℚ) * 30 := by
        simpa [recLoop, recCam, busyCam, baseCam] using hcon.2
      norm_num at h1
    have hskipS : safetyBlock (motionBlock recLoop boundaryEnv).1 boundaryEnv =
        ((motionBlock recLoop boundaryEnv).1, []) := by
      apply safetyBlock_no_trip
      rw [hM]
      rintro (hd | hf)
      · norm_num [recLoop, recCam, busyCam, baseCam, boundaryEnv, quietEnv] at hd
      · norm_num [file_size_exceeded, recLoop, recCam, busyCam, baseCam, boundaryEnv,
          quietEnv] at hf
    simp only [processFrame, hskipE, hskipS]
    rw [hM]
    rfl

/-- Claim C2 witness: a session started at `t = 5`, observed at `now = 100`
under unending motion with `max_record_duration = 60`, is force-stopped in
that pass with exactly one stored classification and no end-snapshot
attempt. -/
theorem forced_stop_on_limit_witness :
    (recLoop.motion_detected = true ∧
      recLoop.cam.is_recording = true ∧
      recLoop.cam.recording_start_time = some 5 ∧
      significantContours recLoop.cam recMotionEnv ≠ [] ∧
      recMotionEnv.now - 5 ≥ recLoop.cam.max_record_duration) ∧
    ((processFrame recLoop recMotionEnv).1.cam.is_recording = false ∧
      ((processFrame recLoop recMotionEnv).2.filter isStoredAct).length = 1 ∧
      Act.snapAttempt "end" ∉ (processFrame recLoop recMotionEnv).2) :=
  ⟨⟨rfl, rfl, rfl,
    by norm_num [significantContours, recLoop, recCam, busyCam, baseCam, recMotionEnv,
      quietEnv, motionContour, contourArea],
    by norm_num [recLoop, recCam, busyCam, baseCam, recMotionEnv, quietEnv]⟩,
   forced_stop_on_limit recLoop recMotionEnv 5 rfl rfl rfl (by norm_num)
    (by norm_num [significantContours, recLoop, recCam, busyCam, baseCam, recMotionEnv,
      quietEnv, motionContour, contourArea])
    (by norm_num [recLoop, recCam, busyCam, baseCam])
    (Or.inl (by norm_num [recLoop, recCam, busyCam, baseCam, recMotionEnv, quietEnv]))⟩

/-! ## Claim C5 -/

/-- Claim C5 (amended): the classification is recomputed on *every*
processed frame with qualifying motion — also mid-event, before any stop is
requested — and the resulting record is only persisted (stored, logged,
published) in a pass whose stop path runs: a stored record implies the pass
ends with the session stopped and the event state reset, and at most one
record is stored per pass. -/
theorem classification_mid_event_and_stored_once (ls : LoopState) (env : Env) :
    (significantContours ls.cam env ≠ [] →
      (motionBlock ls env).1.cam.current_event_classification =
        some (classify_event (significantContours ls.cam env) env.frame_shape env.nowDT
          ls.cam.classifier).1) ∧
    ((∀ c : ClassResult, Act.storedEvent c ∈ (processFrame ls env).2 →
      (processFrame ls env).1.cam.is_recording = false ∧
      (processFrame ls env).1.cam.current_event_classification = none) ∧
    ((processFrame ls env).2.filter isStoredAct).length ≤ 1) := by
  refine ⟨motionBlock_classification ls env, ?_⟩
  by_cases hE : ((motionBlock ls env).1.motion_detected = true ∧
      (((motionBlock ls env).1.consecutive_frames_without_motion : ℚ)) >
        (motionBlock ls env).1.cam.post_record_seconds * 30)
  · obtain ⟨eA, eB, eC, eD⟩ := motionEndBlock_fire (motionBlock ls env).1 env hE
    have hskipS : safetyBlock (motionEndBlock (motionBlock ls env).1 env).1 env =
        ((motionEndBlock (motionBlock ls env).1 env).1, []) :=
      safetyBlock_skip_idle _ env eA
    constructor
    · intro c _
      exact ⟨by simp only [processFrame, hskipS]; exact eA,
             by simp only [processFrame, hskipS]; exact eB⟩
    · simp only [processFrame, hskipS]
      simpa [List.filter_append, (motionBlock_acts_shape ls env).1] using eD
  · have hskipE := motionEndBlock_skip (motionBlock ls env).1 env hE
    by_cases hS1 : ((motionBlock ls env).1.cam.is_recording = true ∧
        pyTruthyQ (motionBlock ls env).1.cam.recording_start_time = true)
    · by_cases hS2 : (env.now - (motionBlock ls env).1.cam.recording_start_time.getD 0 ≥
          (motionBlock ls env).1.cam.max_record_duration ∨
          file_size_exceeded (motionBlock ls env).1.cam env = true)
      · obtain ⟨sA, sB, sC, sD, sE⟩ := safetyBlock_fire _ env hS1.1 hS1.2 hS2
        constructor
        · intro c _
          exact ⟨by simp only [processFrame, hskipE]; exact sA,
                 by simp only [processFrame, hskipE]; exact sB⟩
        · simp only [processFrame, hskipE]
          simp [List.filter_append, (motionBlock_acts_shape ls env).1, sD]
          split_ifs <;> simp
      · have hskipS := safetyBlock_no_trip (motionBlock ls env).1 env hS2
        constructor
        · intro c hc
          exfalso
          apply not_mem_of_filter_stored_nil (motionBlock_acts_shape ls env).1 c
          simpa [processFrame, hskipE, hskipS] using hc
        · simp only [processFrame, hskipE, hskipS]
          simp [List.filter_append, (motionBlock_acts_shape ls env).1]
    · have hskipS := safetyBlock_skip_guard (motionBlock ls env).1 env hS1
      constructor
      · intro c hc
        exfalso
        apply not_mem_of_filter_stored_nil (motionBlock_acts_shape ls env).1 c
        simpa [processFrame, hskipE, hskipS] using hc
      · simp only [processFrame, hskipE, hskipS]
        simp [List.filter_append, (motionBlock_acts_shape ls env).1]

/-- Claim C5 counterexample: on a mid-event pass with qualifying motion
(session active since `t = 5`, observed at `now = 20`, no limit near), a
classification is computed and held although no stop has been requested —
the session is still active after the pass and nothing was persisted — so
classification is not "computed exactly once, after the stop transition". -/
theorem classification_before_stop_counterexample :
    (processFrame midLoop midEnv).1.cam.current_event_classification.isSome = true ∧
    (processFrame midLoop midEnv).1.cam.is_recording = true ∧
    ((processFrame midLoop midEnv).2.filter isStoredAct) = [] := by
  have hm : significantContours midLoop.cam midEnv ≠ [] := by
    norm_num [significantContours, midLoop, busyCam, baseCam, midEnv, quietEnv,
      motionContour, contourArea]
  obtain ⟨hA, hB, hC, hD, hE, hF, hG, hH, hI⟩ :=
    motionBlock_active_motion midLoop midEnv rfl hm
  have hskipE : motionEndBlock (motionBlock midLoop midEnv).1 midEnv =
      ((motionBlock midLoop midEnv).1, []) := by
    apply motionEndBlock_skip
    rw [hB, hI]
    intro hcon
    have h0 : ((0 : ℕ) : ℚ) > midLoop.cam.post_record_seconds * 30 := hcon.2
    norm_num [midLoop, busyCam, baseCam] at h0
  have hskipS : safetyBlock (motionBlock midLoop midEnv).1 midEnv =
      ((motionBlock midLoop midEnv).1, []) := by
    apply safetyBlock_no_trip
    rw [hE, hG, file_size_exceeded_congr _ midLoop.cam midEnv hF hH]
    rintro (hd | hf)
    · norm_num [midLoop, busyCam, baseCam, midEnv, quietEnv] at hd
    · norm_num [file_size_exceeded, midLoop, busyCam, baseCam, midEnv, quietEnv] at hf
  refine ⟨?_, ?_, ?_⟩
  · simp only [processFrame, hskipE, hskipS]
    simp [hC]
  · simp only [processFrame, hskipE, hskipS]
    rw [hD]
    rfl
  · simp only [processFrame, hskipE, hskipS]
    simp [List.filter_append, (motionBlock_acts_shape midLoop midEnv).1]

/-- Claim C5 witness: the mid-event pass recomputes the classification from
the frame's contours, and in the forced-stop pass the stored record comes
with the session stopped and the event state reset. -/
theorem classification_mid_event_and_stored_once_witness :
    (significantContours midLoop.cam midEnv ≠ [] ∧
      (motionBlock midLoop midEnv).1.cam.current_event_classification =
        some (classify_event (significantContours midLoop.cam midEnv) midEnv.frame_shape
          midEnv.nowDT midLoop.cam.classifier).1) ∧
    (Act.storedEvent sampleClassification ∈ (processFrame recLoop limitEnv).2 ∧
      (processFrame recLoop limitEnv).1.cam.is_recording = false ∧
      (processFrame recLoop limitEnv).1.cam.current_event_classification = none) :=
  ⟨⟨by
      norm_num [significantContours, midLoop, busyCam, baseCam, midEnv, quietEnv,
        motionContour, contourArea],
    (classification_mid_event_and_stored_once midLoop midEnv).1 (by
      norm_num [significantContours, midLoop, busyCam, baseCam, midEnv, quietEnv,
        motionContour, contourArea])⟩,
   ⟨by
      norm_num [processFrame, motionBlock, motionEndBlock, safetyBlock,
        significantContours, storeEventStep, resetEventState, stop_recording,
        file_size_exceeded, pyTruthyQ, pyInt, capture_snapshot, procSnapsStep,
        reset_motion_tracking, recLoop, recCam, busyCam, baseCam, limitEnv, quietEnv],
    ((classification_mid_event_and_stored_once recLoop limitEnv).2.1
        sampleClassification (by
      norm_num [processFrame, motionBlock, motionEndBlock, safetyBlock,
        significantContours, storeEventStep, resetEventState, stop_recording,
        file_size_exceeded, pyTruthyQ, pyInt, capture_snapshot, procSnapsStep,
        reset_motion_tracking, recLoop, recCam, busyCam, baseCam, limitEnv, quietEnv])).1,
    ((classification_mid_event_and_stored_once recLoop limitEnv).2.1
        sampleClassification (by
      norm_num [processFrame, motionBlock, motionEndBlock, safetyBlock,
        significantContours, storeEventStep, resetEventState, stop_recording,
        file_size_exceeded, pyTruthyQ, pyInt, capture_snapshot, procSnapsStep,
        reset_motion_tracking, recLoop, recCam, busyCam, baseCam, limitEnv, quietEnv])).2⟩⟩

end TransformerMonitor
